import Mathlib

/-!
Verification of `karaoke_shared/pipeline_utils.py`.

We shallowly embed the pure and stateful operations of the module:
`clean_string`, the status-store functions (`set_file_status`,
`set_file_error`, `clear_file_error`, `get_file_status`), the retry
counter functions (`get_retry_count`, `increment_retry`, `reset_retry`),
the retry executor `handle_auto_retry`, and the stream helper `consume`.

The Redis backend is modelled as association lists (string keys to hashes,
string keys to string values).  Observable side effects (work-function
invocations, status writes, notifications, sleeps) are recorded in an
event log threaded through the state, so that counting claims ("exactly
three failures recorded", "exactly one notification") can be stated.
Backend fallibility is modelled explicitly where a claim concerns it:
`increment_retry` takes a flag for whether the `SET` write succeeds, and
`consume` is parameterised by the backend response (which may be an
error, mirroring a raising `xreadgroup`).
-/

namespace PipelineUtils

/-! ## Python string helpers -/

/-- The whitespace characters recognised by Python `str.strip()`
(ASCII whitespace plus the common Unicode whitespace characters). -/
def pySpace (c : Char) : Bool :=
  c = ' ' || c = '\t' || c = '\n' || c = '\x0d' || c = '\x0b' || c = '\x0c' ||
  c = '\x1c' || c = '\x1d' || c = '\x1e' || c = '\x1f' || c = '\x85' || c = '\xa0'

/-- Python `str.strip()` on a character list: drop leading and trailing
whitespace. -/
def pyStrip (l : List Char) : List Char :=
  List.rdropWhile pySpace (List.dropWhile pySpace l)

/-- `replace("/", "-")` on one character. -/
def slashToDash (c : Char) : Char := if c = '/' then '-' else c

/-- `replace("\\", "-")` on one character. -/
def backslashToDash (c : Char) : Char := if c = '\\' then '-' else c

/-- `clean_string` on a genuine string:
`s.replace("\x00", "").replace("/", "-").replace("\\", "-").strip()`. -/
def cleanStringStr (s : String) : String :=
  ⟨pyStrip (((s.data.filter (fun c => c ≠ '\x00')).map slashToDash).map backslashToDash)⟩

/-! ## Python values (for the dynamic-typing claim)

`clean_string` accepts any Python value; a non-`str` argument is first
coerced with `str(...)`.  We model a small universe of Python values with
their `str()` representations. -/

/-- A Python value passed to `clean_string`. -/
inductive PyVal where
  | str (s : String)
  | int (n : Int)
  | bool (b : Bool)
  | none
deriving DecidableEq

/-- Python `str(v)`. -/
def pyStr : PyVal → String
  | .str s => s
  | .int n => toString n
  | .bool b => if b then "True" else "False"
  | .none => "None"

/-- `clean_string(s)`: if the argument is not a `str`, coerce with
`str(...)`; then sanitize. -/
def clean_string (v : PyVal) : String :=
  match v with
  | .str s => cleanStringStr s
  | v => cleanStringStr (pyStr v)

/-! ## Sanitizer lemmas -/

/-- After the two replacements, a non-NUL character maps to something that is
neither NUL, `/` nor `\`. -/
theorem sanitized_char (b : Char) (hb : b ≠ '\x00') :
    backslashToDash (slashToDash b) ≠ '\x00' ∧ backslashToDash (slashToDash b) ≠ '/' ∧
    backslashToDash (slashToDash b) ≠ '\\' := by
  by_cases h1 : b = '/'
  · subst h1; decide
  · by_cases h2 : b = '\\'
    · subst h2; decide
    · unfold slashToDash backslashToDash
      rw [if_neg h1, if_neg h2]
      exact ⟨hb, h1, h2⟩

theorem pyStrip_sublist (l : List Char) : List.Sublist (pyStrip l) l := by
  unfold pyStrip
  exact (List.rdropWhile_prefix _ _).sublist.trans (List.dropWhile_sublist _)

theorem mem_pyStrip {c : Char} {l : List Char} (h : c ∈ pyStrip l) : c ∈ l :=
  (pyStrip_sublist l).mem h

/-- Every character of `cleanStringStr s` is neither NUL, nor `/`, nor `\`. -/
theorem cleanStringStr_chars (s : String) :
    ∀ c ∈ (cleanStringStr s).data, c ≠ '\x00' ∧ c ≠ '/' ∧ c ≠ '\\' := by
  intro c hc
  have hmem : c ∈ ((s.data.filter (fun c => c ≠ '\x00')).map slashToDash).map
      backslashToDash := mem_pyStrip hc
  rcases List.mem_map.mp hmem with ⟨a, ha, rfl⟩
  rcases List.mem_map.mp ha with ⟨b, hb, rfl⟩
  have hb0 : b ≠ '\x00' := by
    have := List.of_mem_filter hb
    simpa using this
  exact sanitized_char b hb0

theorem head_dropWhile {p : Char → Bool} {l : List Char} {a : Char} {t : List Char}
    (h : List.dropWhile p l = a :: t) : p a = false := by
  induction l with
  | nil => simp [List.dropWhile] at h
  | cons x xs ih =>
    rw [List.dropWhile_cons] at h
    by_cases hx : p x
    · simp [hx] at h
      exact ih h
    · simp [hx] at h
      rw [← h.1]
      simpa using hx

/-- `pyStrip` is idempotent. -/
theorem pyStrip_idempotent (l : List Char) : pyStrip (pyStrip l) = pyStrip l := by
  unfold pyStrip
  have hdrop : List.dropWhile pySpace
        (List.rdropWhile pySpace (List.dropWhile pySpace l)) =
      List.rdropWhile pySpace (List.dropWhile pySpace l) := by
    cases hr : List.rdropWhile pySpace (List.dropWhile pySpace l) with
    | nil => rfl
    | cons a t =>
      have hpref := List.rdropWhile_prefix pySpace (l := List.dropWhile pySpace l)
      rw [hr] at hpref
      rcases hpref with ⟨rest, hrest⟩
      have hcons : List.dropWhile pySpace l = a :: (t ++ rest) := by
        rw [← hrest]; simp
      have ha : pySpace a = false := head_dropWhile hcons
      rw [List.dropWhile_cons, ha]
      simp
  rw [hdrop, List.rdropWhile_idempotent]

/-- Pointwise-identity maps are the identity. -/
theorem map_id_of_mem {f : Char → Char} {l : List Char} (h : ∀ a ∈ l, f a = a) :
    l.map f = l := by
  induction l with
  | nil => rfl
  | cons x xs ih =>
    simp only [List.map_cons]
    rw [h x (List.mem_cons_self x xs), ih (fun a ha => h a (List.mem_cons_of_mem x ha))]

/-- If no character of `l` is NUL, `/` or `\`, the filter and both maps are
the identity on `l`. -/
theorem sanitize_core_id (l : List Char)
    (h : ∀ c ∈ l, c ≠ '\x00' ∧ c ≠ '/' ∧ c ≠ '\\') :
    ((l.filter (fun c => c ≠ '\x00')).map slashToDash).map backslashToDash = l := by
  have hf : l.filter (fun c => c ≠ '\x00') = l := by
    apply List.filter_eq_self.mpr
    intro a ha
    simpa using (h a ha).1
  rw [hf]
  have hm1 : l.map slashToDash = l := by
    apply map_id_of_mem
    intro a ha
    unfold slashToDash
    simp [(h a ha).2.1]
  rw [hm1]
  apply map_id_of_mem
  intro a ha
  unfold backslashToDash
  simp [(h a ha).2.2]

/-- `cleanStringStr` is idempotent. -/
theorem cleanStringStr_idem (s : String) :
    cleanStringStr (cleanStringStr s) = cleanStringStr s := by
  have h := cleanStringStr_chars s
  show (⟨pyStrip ((((cleanStringStr s).data.filter (fun c => c ≠ '\x00')).map
      slashToDash).map backslashToDash)⟩ : String) = cleanStringStr s
  rw [sanitize_core_id _ h]
  have hstrip : pyStrip (cleanStringStr s).data = (cleanStringStr s).data := by
    show pyStrip (pyStrip _) = pyStrip _
    exact pyStrip_idempotent _
  rw [hstrip]

/-- Claim C7: for every input string, the sanitizer output contains no NUL
byte, no `/` and no `\`; and `clean_string("a/b\c<NUL> ") = "a-b-c"`. -/
theorem claim_C7_sanitizer_output :
    (∀ s : String, ∀ c ∈ (cleanStringStr s).data, c ≠ '\x00' ∧ c ≠ '/' ∧ c ≠ '\\') ∧
    clean_string (.str "a/b\\c\x00 ") = "a-b-c" := by
  refine ⟨cleanStringStr_chars, ?_⟩
  decide

/-- Claim C7 witness: a concrete character of a concrete sanitized string is
neither NUL, `/` nor `\`. -/
theorem claim_C7_sanitizer_output_witness :
    'x' ≠ '\x00' ∧ 'x' ≠ '/' ∧ 'x' ≠ '\\' :=
  claim_C7_sanitizer_output.1 "x/y" 'x' (by decide)

/-- Claim C8: the sanitizer is idempotent:
`clean_string(clean_string(s)) = clean_string(s)` for every string `s`. -/
theorem claim_C8_sanitizer_idempotent (s : String) :
    clean_string (.str (clean_string (.str s))) = clean_string (.str s) :=
  cleanStringStr_idem s

/-- Claim C10: `clean_string` is total over arbitrary Python values; a
non-string input is first coerced with `str(...)` and then sanitized like any
string, so the sanitizer guarantees extend to every input value. -/
theorem claim_C10_sanitizer_total (v : PyVal) :
    clean_string v = cleanStringStr (pyStr v) ∧
    ∀ c ∈ (clean_string v).data, c ≠ '\x00' ∧ c ≠ '/' ∧ c ≠ '\\' := by
  constructor
  · cases v <;> rfl
  · cases v <;> exact cleanStringStr_chars _

/-- Claim C10 witness: the integer input `-3` is coerced to `"-3"` and
sanitized; its first character is safe. -/
theorem claim_C10_sanitizer_total_witness :
    clean_string (.int (-3)) = cleanStringStr (pyStr (.int (-3))) ∧
    ('-' ≠ '\x00' ∧ '-' ≠ '/' ∧ '-' ≠ '\\') :=
  ⟨(claim_C10_sanitizer_total (.int (-3))).1,
   (claim_C10_sanitizer_total (.int (-3))).2 '-' (by decide)⟩

/-! ## Redis state model

Redis hashes (`file:{filename}`) and string values (`{stage}_retries:{filename}`)
are modelled as association lists.  `upsertA` overwrites the binding of an
existing key in place and appends a new key at the end, matching hash-field
upsert; `removeA` deletes a binding. -/

def lookupA {α : Type} : List (String × α) → String → Option α
  | [], _ => none
  | p :: l, k => if p.1 == k then some p.2 else lookupA l k

def upsertA {α : Type} : List (String × α) → String → α → List (String × α)
  | [], k, v => [(k, v)]
  | p :: l, k, v => if p.1 == k then (k, v) :: l else p :: upsertA l k v

def removeA {α : Type} : List (String × α) → String → List (String × α)
  | [], _ => []
  | p :: l, k => if p.1 == k then removeA l k else p :: removeA l k

/-- Observable side effects of the module, recorded in order. -/
inductive Ev where
  | workCall (attempt : Nat)
  | setStatusCall (filename status : String) (error : Option String)
  | notifyCall (subject body : String)
  | sleepCall (secs : Nat)
deriving DecidableEq

/-- The Redis backend state plus the chronological effect log. -/
structure St where
  hashes : List (String × List (String × String))
  strings : List (String × String)
  log : List Ev
deriving DecidableEq

/-- The empty backend. -/
def St.empty : St := ⟨[], [], []⟩

def hashUpsertFields (h : List (String × String)) (value : List (String × String)) :
    List (String × String) :=
  value.foldl (fun a p => upsertA a p.1 p.2) h

/-! ## Status store -/

/-- `set_file_status(filename, status, error=None, extra=None)`: builds the
mapping `{"status": status}`, adds `error` iff truthy (non-`None`, non-empty),
merges `extra`, and `HSET`s it onto `file:{filename}`.  The call is recorded
in the effect log. -/
def set_file_status (filename status : String) (error : Option String)
    (extra : List (String × String)) (st : St) : St :=
  let key := "file:" ++ filename
  let value := [("status", status)] ++
    (match error with
     | some e => if e = "" then [] else [("error", e)]
     | none => []) ++ extra
  let h := (lookupA st.hashes key).getD []
  { st with hashes := upsertA st.hashes key (hashUpsertFields h value),
            log := st.log ++ [Ev.setStatusCall filename status error] }

/-- `set_file_error(filename, error)`. -/
def set_file_error (filename error : String) (st : St) : St :=
  set_file_status filename "error" (some error) [] st

/-- The record returned by `get_file_status`. -/
structure FileStatus where
  filename : String
  status : String
  last_error : String
deriving DecidableEq

/-- `get_file_status(filename)`: `HGETALL` on `file:{filename}` (missing key
reads as the empty hash), defaulting `status` to `"unknown"` and `last_error`
to `""`. -/
def get_file_status (filename : String) (st : St) : FileStatus :=
  let data := (lookupA st.hashes ("file:" ++ filename)).getD []
  { filename := filename,
    status := (lookupA data "status").getD "unknown",
    last_error := (lookupA data "error").getD "" }

/-! ## Retry counters -/

/-- The four pipeline stages whose counters `clear_file_error` resets. -/
def stages : List String := ["metadata", "splitter", "packager", "organizer"]

/-- The Redis key `{stage}_retries:{filename}`. -/
def retryKey (stage filename : String) : String := stage ++ "_retries:" ++ filename

/-- `get_retry_count(stage, filename)`: `int(GET key or 0)`, 0 on a missing
key; the module only ever stores decimal naturals at this key, for which
`String.toNat?` agrees with Python `int(...)` (and the bare `except: return 0`
coincides with `getD 0` on any unparsable value). -/
def get_retry_count (stage filename : String) (st : St) : Nat :=
  match lookupA st.strings (retryKey stage filename) with
  | none => 0
  | some v => v.toNat?.getD 0

/-- `increment_retry(stage, filename)`: computes `cnt = get + 1`, attempts the
`SET` (the `setOk` flag models whether the backend write raises; a raise is
swallowed by the bare `except: pass`), and returns `cnt` in either case. -/
def increment_retry (stage filename : String) (setOk : Bool) (st : St) : Nat × St :=
  let cnt := get_retry_count stage filename st + 1
  (cnt,
    if setOk then
      { st with strings := upsertA st.strings (retryKey stage filename) (toString cnt) }
    else st)

/-- `reset_retry(stage, filename)`: `DEL` on the counter key. -/
def reset_retry (stage filename : String) (st : St) : St :=
  { st with strings := removeA st.strings (retryKey stage filename) }

/-- `clear_file_error(filename)`: `HSET file:{filename} status queued`, `DEL`
of every stage counter, then `HDEL file:{filename} error`. -/
def clear_file_error (filename : String) (st : St) : St :=
  let key := "file:" ++ filename
  let h := (lookupA st.hashes key).getD []
  let st1 := { st with hashes := upsertA st.hashes key (upsertA h "status" "queued") }
  let st2 := stages.foldl
    (fun s stage => { s with strings := removeA s.strings (retryKey stage filename) }) st1
  let h2 := (lookupA st2.hashes key).getD []
  { st2 with hashes := upsertA st2.hashes key (removeA h2 "error") }

/-! ## Retry executor -/

/-- The error record written on each failure.  The code composes
`f"{timestamp}\n{e}\n{tb}"`; the wall-clock timestamp and the traceback are
not part of the functional state and are abstracted as fixed placeholders. -/
def errRecord (e : String) : String := "<timestamp>\n" ++ e ++ "\n<traceback>"

/-- The notification subject `f"Pipeline Error [{stage}]"`. -/
def notifySubject (stage : String) : String := "Pipeline Error [" ++ stage ++ "]"

/-- The notification body `f"{stage} FAILED: {filename}\n{e}\n{tb}"` (traceback
abstracted). -/
def notifyBody (stage filename e : String) : String :=
  stage ++ " FAILED: " ++ filename ++ "\n" ++ e ++ "\n<traceback>"

/-- The body of `handle_auto_retry`s `for attempt in range(1, max_retries+1)`
loop.  `remaining` counts the iterations left (structural fuel); `attempt` is
the Python loop variable.  The work function is modelled as a map from the
attempt number to that invocation's outcome.  Falling off the end of the loop
returns Python `None`, i.e. `Except.ok none`; `raise` re-raises the caught
exception, i.e. `Except.error e`. -/
def handle_auto_retry_loop {ρ : Type} (stage filename : String)
    (func : Nat → Except String ρ) (max_retries retry_delay : Nat)
    (notify_fail : Bool) : Nat → Nat → St → Except String (Option ρ) × St
  | _, 0, st => (Except.ok Option.none, st)
  | attempt, r + 1, st =>
    let st := { st with log := st.log ++ [Ev.workCall attempt] }
    match func attempt with
    | Except.ok result => (Except.ok (some result), reset_retry stage filename st)
    | Except.error e =>
      let st := (increment_retry stage filename true st).2
      let st := set_file_error filename (errRecord e) st
      let st :=
        if attempt < max_retries then
          { st with log := st.log ++ [Ev.sleepCall retry_delay] }
        else if notify_fail then
          { st with log := st.log ++
              [Ev.notifyCall (notifySubject stage) (notifyBody stage filename e)] }
        else st
      if attempt = max_retries then (Except.error e, st)
      else handle_auto_retry_loop stage filename func max_retries retry_delay
        notify_fail (attempt + 1) r st

/-- `handle_auto_retry(stage, filename, func, max_retries, retry_delay,
notify_fail)`. -/
def handle_auto_retry {ρ : Type} (stage filename : String)
    (func : Nat → Except String ρ) (max_retries retry_delay : Nat)
    (notify_fail : Bool) (st : St) : Except String (Option ρ) × St :=
  handle_auto_retry_loop stage filename func max_retries retry_delay notify_fail 1
    max_retries st

/-! ## Stream consumption -/

/-- A dynamically typed value delivered by the redis client: either an
already-decoded `str` (what `decode_responses=True` yields) or raw `bytes`
(carrying its UTF-8 decoding). -/
inductive PyV where
  | pystr (s : String)
  | pybytes (s : String)
deriving DecidableEq

/-- Python `.decode()`: succeeds on `bytes`; on `str` it raises
`AttributeError` (modelled as `Except.error`). -/
def PyV.decode : PyV → Except String String
  | .pystr _ => Except.error "AttributeError: str object has no attribute decode"
  | .pybytes s => Except.ok s

/-- An `xreadgroup` reply: `[(stream_key, [(msg_id, fields)])]`, with
dynamically typed field keys and values. -/
abbrev StreamReply := List (String × List (String × List (PyV × PyV)))

/-- The dict comprehension `{k.decode(): v for k, v in data.items()}`: the
first raising `k.decode()` aborts the whole comprehension. -/
def decodeFields (data : List (PyV × PyV)) : Except String (List (String × PyV)) :=
  data.mapM (fun p => (PyV.decode p.1).map (fun ks => (ks, p.2)))

/-- `consume(stream_key, group_name, consumer_name, block, count)`, as a
function of the backend reply (`Except.error` models a raising `xreadgroup`):
falsy reply gives `[]`; otherwise the first stream's messages are mapped
through the decoding comprehension; any exception inside the `try` is caught
and `[]` is returned. -/
def consume (response : Except String StreamReply) :
    List (String × List (String × PyV)) :=
  match response with
  | Except.error _ => []
  | Except.ok entries =>
    match entries with
    | [] => []
    | (_, msgs) :: _ =>
      match msgs.mapM (fun m => (decodeFields m.2).map (fun fs => (m.1, fs))) with
      | Except.ok out => out
      | Except.error _ => []

/-- Fields as delivered by the module's singleton client, which is constructed
with `decode_responses=True`: keys and values arrive as `str`. -/
def decodedFields (fs : List (String × String)) : List (PyV × PyV) :=
  fs.map (fun p => (PyV.pystr p.1, PyV.pystr p.2))

/-! ## Association-list lemmas -/

theorem lookupA_upsertA_self {α : Type} (l : List (String × α)) (k : String) (v : α) :
    lookupA (upsertA l k v) k = some v := by
  induction l with
  | nil => simp [lookupA, upsertA]
  | cons p l ih =>
    by_cases h : p.1 = k
    · simp [upsertA, lookupA, h]
    · simp [upsertA, lookupA, h, ih]

theorem lookupA_upsertA_ne {α : Type} (l : List (String × α)) {k q : String} (v : α)
    (h : q ≠ k) : lookupA (upsertA l k v) q = lookupA l q := by
  induction l with
  | nil => simp [lookupA, upsertA, Ne.symm h]
  | cons p l ih =>
    by_cases hp : p.1 = k
    · simp [upsertA, lookupA, hp, Ne.symm h]
    · simp [upsertA, lookupA, hp, ih]

theorem lookupA_removeA {α : Type} (l : List (String × α)) (k q : String) :
    lookupA (removeA l k) q = if q = k then none else lookupA l q := by
  induction l with
  | nil => simp [lookupA, removeA]
  | cons p l ih =>
    by_cases hp : p.1 = k
    · have hrm : removeA (p :: l) k = removeA l k := by simp [removeA, hp]
      rw [hrm, ih]
      by_cases hq : q = k
      · simp [hq]
      · simp [hq, lookupA, hp, Ne.symm hq]
    · have hrm : removeA (p :: l) k = p :: removeA l k := by simp [removeA, hp]
      rw [hrm]
      by_cases hpq : p.1 = q
      · have hqk : q ≠ k := fun hc => hp (hpq.trans hc)
        simp [lookupA, hpq, hqk]
      · simp [lookupA, hpq, ih]

/-- The error field stored in the record of `filename`. -/
def fileErrorField (filename : String) (st : St) : Option String :=
  lookupA ((lookupA st.hashes ("file:" ++ filename)).getD []) "error"

/-- Claim C2 counterexample: writing status `"done"` (without an error
argument) after an error state leaves the stale `error` field in place, so a
record whose status is not `"error"` can still carry an error field. -/
theorem claim_C2_counterexample :
    (get_file_status "song.mp3" (set_file_status "song.mp3" "done" Option.none []
        (set_file_error "song.mp3" "boom" St.empty))).status = "done" ∧
    (get_file_status "song.mp3" (set_file_status "song.mp3" "done" Option.none []
        (set_file_error "song.mp3" "boom" St.empty))).last_error = "boom" ∧
    fileErrorField "song.mp3" (set_file_status "song.mp3" "done" Option.none []
        (set_file_error "song.mp3" "boom" St.empty)) = some "boom" := by
  refine ⟨rfl, rfl, rfl⟩

/-- Claim C2 (amended): a status write without an error argument leaves the
`error` field exactly as it was — it is not cleared when the status moves away
from `"error"`; the `error` field is removed by `clear_file_error` (which sets
status to `"queued"`). -/
theorem claim_C2_error_field_persistence (filename status : String) (st : St) :
    fileErrorField filename (set_file_status filename status Option.none [] st) =
      fileErrorField filename st ∧
    fileErrorField filename (clear_file_error filename st) = Option.none := by
  constructor
  · show lookupA ((lookupA (upsertA st.hashes ("file:" ++ filename)
        (hashUpsertFields ((lookupA st.hashes ("file:" ++ filename)).getD [])
          [("status", status)])) ("file:" ++ filename)).getD []) "error" = _
    rw [lookupA_upsertA_self]
    show lookupA (upsertA ((lookupA st.hashes ("file:" ++ filename)).getD [])
      "status" status) "error" = _
    rw [lookupA_upsertA_ne _ _ (by decide)]
    rfl
  · unfold fileErrorField clear_file_error
    simp only [stages, List.foldl_cons, List.foldl_nil]
    rw [lookupA_upsertA_self]
    simp [lookupA_removeA]

/-- Claim C5 counterexample: with an absent counter (pre-increment value 0)
and a failing backend write, `increment_retry` returns 1, not the
pre-increment value. -/
theorem claim_C5_counterexample :
    (increment_retry "metadata" "a.mp3" false St.empty).1 = 1 ∧
    get_retry_count "metadata" "a.mp3" St.empty = 0 ∧
    (increment_retry "metadata" "a.mp3" false St.empty).1 ≠
      get_retry_count "metadata" "a.mp3" St.empty := by
  refine ⟨rfl, rfl, by decide⟩

/-- Claim C5 (amended): `increment_retry` always returns the incremented value
`get_retry_count + 1`, whether or not the backend `SET` succeeds; when the
write fails the exception is swallowed and the stored state is unmodified, so
nothing is raised to the caller. -/
theorem claim_C5_increment_on_failure (stage filename : String) (st : St) :
    increment_retry stage filename false st =
      (get_retry_count stage filename st + 1, st) ∧
    (increment_retry stage filename true st).1 =
      get_retry_count stage filename st + 1 := by
  exact ⟨rfl, rfl⟩

/-- Claim C9: the module client is built with `decode_responses=True`, so a
delivered message has `str` field keys; `k.decode()` then raises
`AttributeError`, the blanket `except` swallows it, and `consume` returns `[]`
— silently dropping the claimed message instead of returning it.  A raising
`xreadgroup` does yield `[]` as claimed, and with `bytes` keys (what the
code's inline comment assumed) the intended pair list is returned. -/
theorem claim_C9_consume_drops_messages :
    consume (Except.ok [("stream:queued",
        [("1-0", decodedFields [("filename", "a.mp3")])])]) = [] ∧
    consume (Except.error "ConnectionError") =
      ([] : List (String × List (String × PyV))) ∧
    consume (Except.ok [("stream:queued",
        [("1-0", [(PyV.pybytes "filename", PyV.pystr "a.mp3")])])]) =
      [("1-0", [("filename", PyV.pystr "a.mp3")])] := by
  refine ⟨rfl, rfl, rfl⟩

/-! ## Retry executor claims -/

def Ev.isWork : Ev → Bool
  | .workCall _ => true
  | _ => false

def Ev.isErrorWrite : Ev → Bool
  | .setStatusCall _ s _ => s == "error"
  | _ => false

def Ev.isNotify : Ev → Bool
  | .notifyCall _ _ => true
  | _ => false

/-- The effect trace of an exhausted `handle_auto_retry` run with
`max_retries = 3` when attempt `n` fails with `errs n`. -/
def exhaustLog (stage filename : String) (errs : Nat → String) : List Ev :=
  [Ev.workCall 1, Ev.setStatusCall filename "error" (some (errRecord (errs 1))),
   Ev.sleepCall 5,
   Ev.workCall 2, Ev.setStatusCall filename "error" (some (errRecord (errs 2))),
   Ev.sleepCall 5,
   Ev.workCall 3, Ev.setStatusCall filename "error" (some (errRecord (errs 3))),
   Ev.notifyCall (notifySubject stage) (notifyBody stage filename (errs 3))]

/-- Claim C1: a work function failing on every invocation under
`handle_auto_retry` with `max_retries = 3` and `notify_fail = true` makes
exactly 3 attempts, records exactly 3 error status writes (one per attempt),
dispatches exactly one notification — placed after the final attempt's error
write — and terminally re-raises the work error of the final attempt (the
original cause is propagated, never swallowed). -/
theorem claim_C1_exhaustion {ρ : Type} (stage filename : String)
    (func : Nat → Except String ρ) (errs : Nat → String) (st : St)
    (hfail : ∀ n, func n = Except.error (errs n)) :
    (handle_auto_retry stage filename func 3 5 true st).1 = Except.error (errs 3) ∧
    ((handle_auto_retry stage filename func 3 5 true st).2).log =
      st.log ++ exhaustLog stage filename errs ∧
    (exhaustLog stage filename errs).countP Ev.isWork = 3 ∧
    (exhaustLog stage filename errs).countP Ev.isErrorWrite = 3 ∧
    (exhaustLog stage filename errs).countP Ev.isNotify = 1 := by
  have h1 := hfail 1
  have h2 := hfail 2
  have h3 := hfail 3
  refine ⟨?_, ?_, ?_, ?_, ?_⟩ <;>
    simp [handle_auto_retry, handle_auto_retry_loop, h1, h2, h3, increment_retry,
      set_file_error, set_file_status, exhaustLog, List.countP_cons, Ev.isWork,
      Ev.isErrorWrite, Ev.isNotify]

/-- Claim C1 witness: exhaustion at a concrete always-failing work function. -/
theorem claim_C1_exhaustion_witness :
    (handle_auto_retry "metadata" "a.mp3"
        (fun _ => (Except.error "boom" : Except String Nat)) 3 5 true St.empty).1 =
      Except.error "boom" ∧
    ((handle_auto_retry "metadata" "a.mp3"
        (fun _ => (Except.error "boom" : Except String Nat)) 3 5 true St.empty).2).log =
      St.empty.log ++ exhaustLog "metadata" "a.mp3" (fun _ => "boom") ∧
    (exhaustLog "metadata" "a.mp3" (fun _ => "boom")).countP Ev.isWork = 3 ∧
    (exhaustLog "metadata" "a.mp3" (fun _ => "boom")).countP Ev.isErrorWrite = 3 ∧
    (exhaustLog "metadata" "a.mp3" (fun _ => "boom")).countP Ev.isNotify = 1 :=
  claim_C1_exhaustion "metadata" "a.mp3" _ (fun _ => "boom") St.empty (fun _ => rfl)

/-- Claim C3: a work function succeeding on its first call makes exactly one
invocation, returns its result, deletes (resets) the retry counter — which
then reads 0 — and leaves the file record completely untouched. -/
theorem claim_C3_first_try_success {ρ : Type} (stage filename : String)
    (func : Nat → Except String ρ) (result : ρ) (st : St)
    (hok : func 1 = Except.ok result) :
    handle_auto_retry stage filename func 3 5 true st =
      (Except.ok (some result),
       { st with strings := removeA st.strings (retryKey stage filename),
                 log := st.log ++ [Ev.workCall 1] }) ∧
    ((handle_auto_retry stage filename func 3 5 true st).2).hashes = st.hashes ∧
    get_retry_count stage filename (handle_auto_retry stage filename func 3 5 true st).2
      = 0 := by
  have hmain : handle_auto_retry stage filename func 3 5 true st =
      (Except.ok (some result),
       { st with strings := removeA st.strings (retryKey stage filename),
                 log := st.log ++ [Ev.workCall 1] }) := by
    simp [handle_auto_retry, handle_auto_retry_loop, hok, reset_retry]
  refine ⟨hmain, by rw [hmain], ?_⟩
  rw [hmain]
  simp [get_retry_count, lookupA_removeA]

/-- Claim C3 witness: a concrete first-try success. -/
theorem claim_C3_first_try_success_witness :
    handle_auto_retry "splitter" "a.mp3" (fun _ => (Except.ok 42 : Except String Nat))
        3 5 true St.empty =
      (Except.ok (some 42),
       { St.empty with
           strings := removeA St.empty.strings (retryKey "splitter" "a.mp3"),
           log := St.empty.log ++ [Ev.workCall 1] }) ∧
    ((handle_auto_retry "splitter" "a.mp3"
        (fun _ => (Except.ok 42 : Except String Nat)) 3 5 true St.empty).2).hashes =
      St.empty.hashes ∧
    get_retry_count "splitter" "a.mp3"
      (handle_auto_retry "splitter" "a.mp3"
        (fun _ => (Except.ok 42 : Except String Nat)) 3 5 true St.empty).2 = 0 :=
  claim_C3_first_try_success "splitter" "a.mp3" _ 42 St.empty rfl

/-- Claim C4: a work function failing on attempts 1 and 2 and succeeding on
attempt 3, run with `max_retries = 3`, returns the success result, and the
retry counter ends absent (reading 0). -/
theorem claim_C4_retry_then_success {ρ : Type} (stage filename : String)
    (func : Nat → Except String ρ) (e1 e2 : String) (result : ρ) (st : St)
    (h1 : func 1 = Except.error e1) (h2 : func 2 = Except.error e2)
    (h3 : func 3 = Except.ok result) :
    (handle_auto_retry stage filename func 3 5 true st).1 = Except.ok (some result) ∧
    lookupA ((handle_auto_retry stage filename func 3 5 true st).2).strings
      (retryKey stage filename) = Option.none ∧
    get_retry_count stage filename
      (handle_auto_retry stage filename func 3 5 true st).2 = 0 := by
  refine ⟨?_, ?_, ?_⟩ <;>
    simp [handle_auto_retry, handle_auto_retry_loop, h1, h2, h3, increment_retry,
      set_file_error, set_file_status, reset_retry, get_retry_count, lookupA_removeA]

/-- Claim C4 witness: fail, fail, succeed at a concrete work function. -/
theorem claim_C4_retry_then_success_witness :
    (handle_auto_retry "packager" "a.mp3"
        (fun n => if n = 3 then Except.ok 7 else (Except.error "x" : Except String Nat))
        3 5 true St.empty).1 = Except.ok (some 7) ∧
    lookupA ((handle_auto_retry "packager" "a.mp3"
        (fun n => if n = 3 then Except.ok 7 else (Except.error "x" : Except String Nat))
        3 5 true St.empty).2).strings (retryKey "packager" "a.mp3") = Option.none ∧
    get_retry_count "packager" "a.mp3"
      (handle_auto_retry "packager" "a.mp3"
        (fun n => if n = 3 then Except.ok 7 else (Except.error "x" : Except String Nat))
        3 5 true St.empty).2 = 0 :=
  claim_C4_retry_then_success "packager" "a.mp3" _ "x" "x" 7 St.empty rfl rfl rfl

/-- Claim C6: on a file record in an error state, `clear_file_error` yields
status `"queued"`, an empty last error (the `error` field is gone), and every
stage's retry counter for that filename deleted (reading 0). -/
theorem claim_C6_clear (filename : String) (st : St)
    (_h : (get_file_status filename st).status = "error") :
    (get_file_status filename (clear_file_error filename st)).status = "queued" ∧
    (get_file_status filename (clear_file_error filename st)).last_error = "" ∧
    ∀ stage ∈ stages,
      lookupA (clear_file_error filename st).strings (retryKey stage filename) =
        Option.none ∧
      get_retry_count stage filename (clear_file_error filename st) = 0 := by
  refine ⟨?_, ?_, ?_⟩
  · unfold get_file_status clear_file_error
    simp only [stages, List.foldl_cons, List.foldl_nil]
    rw [lookupA_upsertA_self]
    simp only [Option.getD_some]
    rw [lookupA_removeA]
    simp [lookupA_upsertA_self]
  · unfold get_file_status clear_file_error
    simp only [stages, List.foldl_cons, List.foldl_nil]
    rw [lookupA_upsertA_self]
    simp only [Option.getD_some]
    rw [lookupA_removeA]
    simp
  · intro stage hstage
    have hlook : lookupA (clear_file_error filename st).strings
        (retryKey stage filename) = Option.none := by
      unfold clear_file_error
      simp only [stages, List.foldl_cons, List.foldl_nil]
      simp only [lookupA_removeA]
      fin_cases hstage <;> simp [lookupA_removeA]
    refine ⟨hlook, ?_⟩
    unfold get_retry_count
    rw [hlook]

/-- Claim C6 witness: clearing a concrete error state. -/
theorem claim_C6_clear_witness :
    (get_file_status "f.mp3" (clear_file_error "f.mp3"
        (set_file_error "f.mp3" "boom" St.empty))).status = "queued" ∧
    (get_file_status "f.mp3" (clear_file_error "f.mp3"
        (set_file_error "f.mp3" "boom" St.empty))).last_error = "" ∧
    lookupA (clear_file_error "f.mp3"
        (set_file_error "f.mp3" "boom" St.empty)).strings
      (retryKey "metadata" "f.mp3") = Option.none ∧
    get_retry_count "metadata" "f.mp3" (clear_file_error "f.mp3"
        (set_file_error "f.mp3" "boom" St.empty)) = 0 :=
  ⟨(claim_C6_clear "f.mp3" (set_file_error "f.mp3" "boom" St.empty) rfl).1,
   (claim_C6_clear "f.mp3" (set_file_error "f.mp3" "boom" St.empty) rfl).2.1,
   ((claim_C6_clear "f.mp3" (set_file_error "f.mp3" "boom" St.empty) rfl).2.2
     "metadata" (by decide)).1,
   ((claim_C6_clear "f.mp3" (set_file_error "f.mp3" "boom" St.empty) rfl).2.2
     "metadata" (by decide)).2⟩

end PipelineUtils
